import Mathlib

/-!
# Verification of the JWT authentication plugin core

A shallow embedding of `src/plugin.go` (package `jwt`): the per-request
authentication decision procedure `Authenticate` of the `AuthProvider`
value receiver, and the token-issuance routine `GrantToken` of
`TokenGrantor`.  HTTP effects are modelled by explicit state passing:
a `Response` value accumulates header operations, status writes and body
writes, and the forwarded `Request` is returned (possibly with injected
headers).  Go maps used as string-keyed dictionaries are modelled as
association lists with replace-on-set semantics; Go map key sets
(`TokenValidator.Cookies`) as lists of keys.

Components of the repository that the plugin calls but whose code is not
part of `src/` (`TokenValidatorOptions.Clone`, `addRedirectLocationHeader`,
the `methods` registry, `UserClaims.GetToken`, the token validator's
`Authorize`) are modelled from the specification's description of their
contracts; each such definition is marked `Modelled from the spec:`.
-/

set_option autoImplicit false

namespace CaddyAuthJWT

/-! ## String-keyed maps and HTTP headers -/

/-- A Go `map[string]string` modelled as an association list whose `set`
replaces any previous binding of the key. -/
abbrev StrMap := List (String × String)

/-- Go map assignment `m[k] = v`: drop earlier bindings of `k`, bind `k ↦ v`. -/
def mapSet (m : StrMap) (k v : String) : StrMap :=
  m.filter (fun p => p.1 != k) ++ [(k, v)]

/-- Go map lookup `m[k]`. -/
def mapGet (m : StrMap) (k : String) : Option String :=
  (m.find? (fun p => p.1 == k)).map Prod.snd

/-- An HTTP header block (`http.Header`): a multimap kept as a list of
key/value pairs in insertion order. -/
abbrev Header := List (String × String)

/-- `w.Header().Set(k, v)` of net/http: replace all values of key `k`. -/
def headerSet (h : Header) (k v : String) : Header :=
  h.filter (fun p => p.1 != k) ++ [(k, v)]

/-- `w.Header().Add(k, v)` of net/http: append a value for key `k`. -/
def headerAdd (h : Header) (k v : String) : Header :=
  h ++ [(k, v)]

/-- The list of values stored under key `k`, in order. -/
def headerValues (h : Header) (k : String) : List String :=
  (h.filter (fun p => p.1 == k)).map Prod.snd

/-- `strings.Contains s sub` of the Go standard library. -/
def strContains (s sub : String) : Bool :=
  decide (sub.data <:+: s.data)

/-! ## Requests, responses, claims, identities -/

/-- The parts of `*http.Request` that `Authenticate` reads or writes:
`r.Method`, `r.URL.Path`, and `r.Header`. -/
structure Request where
  Method : String
  Path : String
  Header : Header
  deriving Repr

/-- The observable effect trace of an `http.ResponseWriter`: the header
block, every `WriteHeader` status code in order, and every `Write` body
in order. -/
structure Response where
  headers : Header
  statusWrites : List Nat
  bodyWrites : List String
  deriving Repr

/-- A fresh response writer. -/
def Response.empty : Response := ⟨[], [], []⟩

/-- `w.WriteHeader(code)`. -/
def writeHeader (w : Response) (code : Nat) : Response :=
  { w with statusWrites := w.statusWrites ++ [code] }

/-- `w.Write([]byte(body))`. -/
def writeBody (w : Response) (body : String) : Response :=
  { w with bodyWrites := w.bodyWrites ++ [body] }

/-- `UserClaims`: the identity payload decoded from a token (subject,
name, email, roles).  Only the fields `Authenticate` reads are kept. -/
structure UserClaims where
  Subject : String
  Name : String
  Email : String
  Roles : List String
  deriving Repr

/-- `caddyauth.User`: identifier plus string metadata map. -/
structure User where
  ID : String
  Metadata : StrMap
  deriving Repr

/-- `caddyauth.User{}` — the zero value returned on every failure path. -/
def emptyUser : User := ⟨"", []⟩

/-! ## Validator options and the token validator -/

/-- `TokenValidatorOptions`: only its `Metadata` map is read or written by
`Authenticate`. -/
structure TokenValidatorOptions where
  Metadata : StrMap
  deriving Repr

/-- Modelled from the spec: `TokenValidatorOptions.Clone` is not under
`src/`; per the spec's option-preparation step ("clone the validator
options ... clone, not mutate-in-place"), it returns an independent copy
of the options, metadata included. -/
def TokenValidatorOptions.clone (o : TokenValidatorOptions) : TokenValidatorOptions :=
  { Metadata := o.Metadata }

/-- `TokenValidator`, at the interface `Authenticate` consumes: the set of
cookie names it knows about (`Cookies`, a Go map key set, modelled as the
list of keys), and the validation contract
`Authorize(r, opts) -> (claims, validUser, err)`.  Modelled from the spec:
the validator's internals are out of scope; `Authorize` is an abstract
function of the request and options, and an error is represented by its
message string (the caller string-matches the message). -/
structure TokenValidator where
  Cookies : List String
  Authorize : Request → TokenValidatorOptions → Option UserClaims × Bool × Option String

/-! ## The provider -/

/-- `AuthProvider` with the fields `Authenticate` reads.  Fields the
decision procedure never touches (`Context`, `PrimaryInstance`,
`AccessList`, `TrustedTokens`, `AllowedTokenTypes`, `AllowedTokenSources`,
`PassClaims`, `StripToken`, `ValidateAccessListPathClaim`, logger,
start time) are omitted. -/
structure AuthProvider where
  Name : String
  Provisioned : Bool
  ProvisionFailed : Bool
  AuthURLPath : String
  AuthRedirectQueryDisabled : Bool
  AuthRedirectQueryParameter : String
  TokenValidator : TokenValidator
  TokenValidatorOptions : TokenValidatorOptions
  ForbiddenURL : String
  ValidateMethodPath : Bool
  PassClaimsWithHeaders : Bool

/-- The errors `Authenticate` can return: the constant
`ErrProvisonFailed`, an error from `ProviderPool.Provision`, or the
validator's error (carried by message). -/
inductive AuthErr where
  | provisonFailedErr
  | poolErr (msg : String)
  | validatorErr (msg : String)
  deriving Repr, DecidableEq

/-- The `(caddyauth.User, bool, error)` triple returned by `Authenticate`. -/
structure AuthOutcome where
  user : User
  ok : Bool
  err : Option AuthErr
  deriving Repr

/-- The error-message fragment `Authenticate` string-matches to recognise
a forbidden-role condition. -/
def forbiddenMarker : String := "user role is valid, but not allowed by"

/-- The value of each purged cookie:
`<name>=delete; path=/; expires=Thu, 01 Jan 1970 00:00:00 GMT`. -/
def cookieExpire (name : String) : String :=
  name ++ "=delete; path=/; expires=Thu, 01 Jan 1970 00:00:00 GMT"

/-- `for k := range m.TokenValidator.Cookies { w.Header().Add("Set-Cookie", ...) }`. -/
def purgeCookies (w : Response) (cookies : List String) : Response :=
  cookies.foldl
    (fun w k => { w with headers := headerAdd w.headers "Set-Cookie" (cookieExpire k) }) w

/-- Modelled from the spec: `addRedirectLocationHeader` is not under
`src/`; per the spec's redirect-construction contract, given
`(targetPath, disableQuery, queryParamName)` it computes the `Location`
value — the configured URL path, with a query parameter encoding the
original request path appended unless query redirection is disabled —
and sets it on the response header. -/
def redirectLocation (targetPath : String) (disableQuery : Bool) (queryParam : String)
    (origPath : String) : String :=
  if disableQuery then targetPath
  else targetPath ++ "?" ++ queryParam ++ "=" ++ origPath

/-- `addRedirectLocationHeader(w, r, authURLPath, disabled, param)`:
sets the computed redirect target as the `Location` header. -/
def addRedirectLocationHeader (w : Response) (r : Request) (authURLPath : String)
    (disableQuery : Bool) (queryParam : String) : Response :=
  { w with headers :=
      headerSet w.headers "Location" (redirectLocation authURLPath disableQuery queryParam r.Path) }

/-- Lines 133–140 of `plugin.go`: prepare the validator options, cloning
and stamping method/path metadata when `ValidateMethodPath` is on. -/
def prepareOpts (m : AuthProvider) (r : Request) : TokenValidatorOptions :=
  if m.ValidateMethodPath then
    let opts := m.TokenValidatorOptions.clone
    let opts := { opts with Metadata := mapSet opts.Metadata "method" r.Method }
    { opts with Metadata := mapSet opts.Metadata "path" r.Path }
  else
    m.TokenValidatorOptions

/-- Lines 133–224 of `plugin.go`: the body of `Authenticate` once a
provisioned configuration `m` is in hand. -/
def authenticateCore (m : AuthProvider) (w : Response) (r : Request) :
    Response × Request × AuthOutcome :=
  match m.TokenValidator.Authorize r (prepareOpts m r) with
  | (userClaims, validUser, err) =>
    match err with
    | some e =>
      if strContains e forbiddenMarker then
        let w :=
          if m.ForbiddenURL != "" then
            writeHeader { w with headers := headerSet w.headers "Location" m.ForbiddenURL } 303
          else
            writeHeader w 403
        (writeBody w "Forbidden", r, ⟨emptyUser, false, some (.validatorErr e)⟩)
      else
        let w := purgeCookies w m.TokenValidator.Cookies
        let w := addRedirectLocationHeader w r m.AuthURLPath m.AuthRedirectQueryDisabled
          m.AuthRedirectQueryParameter
        (writeBody (writeHeader w 302) "Unauthorized", r, ⟨emptyUser, false, some (.validatorErr e)⟩)
    | none =>
      if !validUser then
        let w := purgeCookies w m.TokenValidator.Cookies
        let w := addRedirectLocationHeader w r m.AuthURLPath m.AuthRedirectQueryDisabled
          m.AuthRedirectQueryParameter
        (writeBody (writeHeader w 302) "Unauthorized User", r, ⟨emptyUser, false, none⟩)
      else
        match userClaims with
        | none =>
          let w := purgeCookies w m.TokenValidator.Cookies
          let w := addRedirectLocationHeader w r m.AuthURLPath m.AuthRedirectQueryDisabled
            m.AuthRedirectQueryParameter
          (writeBody (writeHeader w 302) "User Unauthorized", r, ⟨emptyUser, false, none⟩)
        | some c =>
          let md := mapSet [] "roles" (String.intercalate " " c.Roles)
          let md := if c.Name != "" then mapSet md "name" c.Name else md
          let r :=
            if c.Name != "" && m.PassClaimsWithHeaders then
              { r with Header := headerSet r.Header "X-Token-User-Name" c.Name }
            else r
          let md := if c.Email != "" then mapSet md "email" c.Email else md
          let r :=
            if c.Email != "" && m.PassClaimsWithHeaders then
              { r with Header := headerSet r.Header "X-Token-User-Email" c.Email }
            else r
          let r :=
            if m.PassClaimsWithHeaders && decide (0 < c.Roles.length) then
              { r with Header :=
                  headerSet r.Header "X-Token-User-Roles" (String.intercalate " " c.Roles) }
            else r
          let r :=
            if m.PassClaimsWithHeaders && c.Subject != "" then
              { r with Header := headerSet r.Header "X-Token-Subject" c.Subject }
            else r
          (w, r, ⟨⟨c.Email, md⟩, true, none⟩)

/-- Lines 111–225 of `plugin.go`: `Authenticate`.  `pool` is
`ProviderPool.Provision`, read-only here — `Authenticate` performs no
registry writes, and its `AuthProvider` receiver is taken by value, so
`m = *provisionedInstance` rebinds only the per-call local copy. -/
def authenticate (pool : String → Except String AuthProvider) (m : AuthProvider)
    (w : Response) (r : Request) : Response × Request × AuthOutcome :=
  if m.ProvisionFailed then
    (writeBody (writeHeader w 500) "Internal Server Error", r,
      ⟨emptyUser, false, some .provisonFailedErr⟩)
  else if !m.Provisioned then
    match pool m.Name with
    | .error e =>
      (writeBody (writeHeader w 500) "Internal Server Error", r,
        ⟨emptyUser, false, some (.poolErr e)⟩)
    | .ok inst => authenticateCore inst w r
  else
    authenticateCore m w r

/-! ## Metadata-map heap: the option-cloning step with Go map aliasing

Go maps are reference values: without the `Clone`, the assignments
`opts.Metadata["method"] = ...` would write through to the shared
configuration's map.  To make that aliasing visible, the
option-preparation step (lines 133–140) is also modelled over an explicit
heap of metadata maps addressed by index, with options holding a
reference. -/

/-- A heap of Go metadata maps; a reference is an index into it. -/
abbrev MetaHeap := List StrMap

/-- Dereference a metadata map. -/
def heapGet (h : MetaHeap) (i : Nat) : StrMap := h.getD i []

/-- Overwrite the map a reference points to. -/
def heapSet (h : MetaHeap) (i : Nat) (m : StrMap) : MetaHeap := h.set i m

/-- Validator options holding their `Metadata` map by reference, as the Go
struct does. -/
structure TokenValidatorOptionsRef where
  metadataRef : Nat

/-- Modelled from the spec: `TokenValidatorOptions.Clone` is not under
`src/`; per the spec it yields an independent copy — here, options whose
metadata lives in a freshly allocated cell holding a copy of the original
map. -/
def cloneRef (h : MetaHeap) (o : TokenValidatorOptionsRef) :
    TokenValidatorOptionsRef × MetaHeap :=
  (⟨h.length⟩, h ++ [heapGet h o.metadataRef])

/-- Lines 133–140 of `plugin.go` over the metadata heap: clone, then
`opts.Metadata["method"] = r.Method; opts.Metadata["path"] = r.URL.Path`
(two in-place map writes through the options' reference). -/
def prepareOptsH (h : MetaHeap) (validateMethodPath : Bool)
    (o : TokenValidatorOptionsRef) (r : Request) : TokenValidatorOptionsRef × MetaHeap :=
  if validateMethodPath then
    let (opts, h) := cloneRef h o
    let h := heapSet h opts.metadataRef (mapSet (heapGet h opts.metadataRef) "method" r.Method)
    let h := heapSet h opts.metadataRef (mapSet (heapGet h opts.metadataRef) "path" r.Path)
    (opts, h)
  else
    (o, h)

/-! ## The token grantor -/

/-- The errors of the signing subsystem: `ErrUnsupportedSigningMethod`
(formatted with the offending method name), `ErrNoClaims`,
`ErrEmptySecret`, and whatever error the underlying signing routine
returns (carried by message). -/
inductive TokenError where
  | unsupportedMethodErr (method : String)
  | noClaimsErr
  | emptySecretErr
  | signingErr (msg : String)
  deriving Repr, DecidableEq

/-- `TokenGrantor` / `CommonTokenConfig`, at the fields `GrantToken`
reads: the configured signing secret. -/
structure TokenGrantor where
  TokenSecret : String
  deriving Repr

/-- Lines 278–289 of `plugin.go`: `GrantToken(method, claims)`.

Modelled from the spec: the `methods` registry of signing algorithms and
the claim set's own signing routine `UserClaims.GetToken` are not under
`src/`.  The registry is the list of registered algorithm names; the
signing routine is an abstract function of the claims, the method, and
the grantor's secret (Go passes `[]byte(g.TokenSecret)`, an injective
re-coding of the same secret). -/
def grantToken (methods : List String)
    (getToken : UserClaims → String → String → Except TokenError String)
    (g : TokenGrantor) (method : String) (claims : Option UserClaims) :
    Except TokenError String :=
  if !methods.contains method then
    .error (.unsupportedMethodErr method)
  else
    match claims with
    | none => .error .noClaimsErr
    | some c =>
      if g.TokenSecret == "" then .error .emptySecretErr
      else getToken c method g.TokenSecret

/-! ## Map and header lemmas -/

theorem filter_ne_filter_eq (h : Header) (k : String) :
    (h.filter (fun p => p.1 != k)).filter (fun p => p.1 == k) = [] := by
  induction h with
  | nil => rfl
  | cons p t ih => by_cases hp : p.1 = k <;> simp [List.filter_cons, hp, ih]

theorem filter_eq_filter_ne (h : Header) (k k' : String) (hne : k' ≠ k) :
    (h.filter (fun p => p.1 != k)).filter (fun p => p.1 == k') =
      h.filter (fun p => p.1 == k') := by
  induction h with
  | nil => rfl
  | cons p t ih =>
    by_cases hp : p.1 = k
    · have hp' : ¬ p.1 = k' := by rw [hp]; exact Ne.symm hne
      simp [List.filter_cons, hp, hp', ih, Ne.symm hne]
    · simp [List.filter_cons, hp, ih]

theorem headerValues_headerSet_self (h : Header) (k v : String) :
    headerValues (headerSet h k v) k = [v] := by
  simp only [headerValues, headerSet]
  rw [List.filter_append, filter_ne_filter_eq]
  simp

theorem headerValues_headerSet_ne (h : Header) (k v k' : String) (hne : k' ≠ k) :
    headerValues (headerSet h k v) k' = headerValues h k' := by
  simp only [headerValues, headerSet]
  rw [List.filter_append, filter_eq_filter_ne _ _ _ hne]
  simp [Ne.symm hne]

theorem mapSet_eq_headerSet : mapSet = headerSet := rfl

theorem mapGet_eq_head (m : StrMap) (k : String) :
    mapGet m k = (headerValues m k).head? := by
  induction m with
  | nil => rfl
  | cons p t ih =>
    by_cases hp : p.1 = k <;> simp [mapGet, headerValues, List.find?_cons, hp] at *

theorem mapGet_mapSet_self (m : StrMap) (k v : String) :
    mapGet (mapSet m k v) k = some v := by
  rw [mapGet_eq_head, mapSet_eq_headerSet, headerValues_headerSet_self]
  rfl

theorem mapGet_mapSet_ne (m : StrMap) (k v k' : String) (hne : k' ≠ k) :
    mapGet (mapSet m k v) k' = mapGet m k' := by
  rw [mapGet_eq_head, mapGet_eq_head, mapSet_eq_headerSet,
    headerValues_headerSet_ne _ _ _ _ hne]

theorem headerValues_headerAdd_self (h : Header) (k v : String) :
    headerValues (headerAdd h k v) k = headerValues h k ++ [v] := by
  simp [headerAdd, headerValues, List.filter_append]

theorem headerValues_headerAdd_ne (h : Header) (k v k' : String) (hne : k' ≠ k) :
    headerValues (headerAdd h k v) k' = headerValues h k' := by
  simp [headerAdd, headerValues, List.filter_append, Ne.symm hne]

/-! ## Cookie-purge lemmas -/

theorem purgeCookies_statusWrites (cs : List String) (w : Response) :
    (purgeCookies w cs).statusWrites = w.statusWrites := by
  induction cs generalizing w with
  | nil => rfl
  | cons c t ih => simpa [purgeCookies] using ih _

theorem purgeCookies_bodyWrites (cs : List String) (w : Response) :
    (purgeCookies w cs).bodyWrites = w.bodyWrites := by
  induction cs generalizing w with
  | nil => rfl
  | cons c t ih => simpa [purgeCookies] using ih _

theorem purgeCookies_setCookie (cs : List String) (w : Response) :
    headerValues (purgeCookies w cs).headers "Set-Cookie" =
      headerValues w.headers "Set-Cookie" ++ cs.map cookieExpire := by
  induction cs generalizing w with
  | nil => simp [purgeCookies]
  | cons c t ih =>
    simp only [purgeCookies, List.foldl_cons, List.map_cons] at *
    rw [ih, headerValues_headerAdd_self, List.append_assoc]
    rfl

theorem purgeCookies_headerValues_ne (cs : List String) (w : Response) (k : String)
    (hne : k ≠ "Set-Cookie") :
    headerValues (purgeCookies w cs).headers k = headerValues w.headers k := by
  induction cs generalizing w with
  | nil => rfl
  | cons c t ih =>
    simp only [purgeCookies, List.foldl_cons] at *
    rw [ih, headerValues_headerAdd_ne _ _ _ _ hne]

theorem headerValues_nil (k : String) : headerValues [] k = [] := rfl

theorem cookieExpire_injective : Function.Injective cookieExpire := by
  intro a b hab
  have h2 : (cookieExpire a).data = (cookieExpire b).data := by rw [hab]
  have h3 : a.data ++ "=delete; path=/; expires=Thu, 01 Jan 1970 00:00:00 GMT".data =
      b.data ++ "=delete; path=/; expires=Thu, 01 Jan 1970 00:00:00 GMT".data := by
    simpa [cookieExpire, String.data_append] using h2
  exact String.ext (List.append_cancel_right h3)

/-! ## Witness fixtures -/

/-- Empty validator options. -/
def wOptions : TokenValidatorOptions := ⟨[]⟩

/-- A pool that never resolves; the theorems below never consult it. -/
def wPool : String → Except String AuthProvider := fun _ => .error "no policy"

/-- A concrete request. -/
def wRequest : Request := ⟨"GET", "/x", []⟩

/-- A validator that rejects with a forbidden-role error message. -/
def wValidatorForbidden : TokenValidator :=
  ⟨["access_token"], fun _ _ => (none, false, some "user role is valid, but not allowed by acl")⟩

/-- A provisioned provider wired to `wValidatorForbidden`, with a
forbidden-redirect URL configured. -/
def wProviderForbidden : AuthProvider :=
  { Name := "p", Provisioned := true, ProvisionFailed := false,
    AuthURLPath := "/auth/login", AuthRedirectQueryDisabled := false,
    AuthRedirectQueryParameter := "redirect_url",
    TokenValidator := wValidatorForbidden, TokenValidatorOptions := wOptions,
    ForbiddenURL := "/forbidden", ValidateMethodPath := false,
    PassClaimsWithHeaders := false }

/-! ## Claim theorems -/

/-- C1: on a provisioned provider, if the validator returns an error whose
message contains the forbidden-role marker, `Authenticate` writes status
303 with a `Location` header equal to the configured `ForbiddenURL` when
that URL is non-empty, and status 403 (and no `Location` header) when it
is empty; in both cases the single body write is `Forbidden` and the
validator's error is returned to the caller. -/
theorem forbidden_response (pool : String → Except String AuthProvider)
    (m : AuthProvider) (r : Request) (c : Option UserClaims) (v : Bool) (e : String)
    (hpf : m.ProvisionFailed = false) (hp : m.Provisioned = true)
    (ha : m.TokenValidator.Authorize r (prepareOpts m r) = (c, v, some e))
    (hm : strContains e forbiddenMarker = true) :
    (authenticate pool m Response.empty r).1.statusWrites =
        [if m.ForbiddenURL != "" then 303 else 403] ∧
      headerValues (authenticate pool m Response.empty r).1.headers "Location" =
        (if m.ForbiddenURL != "" then [m.ForbiddenURL] else []) ∧
      (authenticate pool m Response.empty r).1.bodyWrites = ["Forbidden"] ∧
      (authenticate pool m Response.empty r).2.2.err = some (.validatorErr e) := by
  by_cases hu : m.ForbiddenURL = "" <;>
    simp [authenticate, authenticateCore, hpf, hp, ha, hm, hu, writeHeader, writeBody,
      Response.empty, headerValues_headerSet_self, headerValues_nil]

/-- Witness for C1 at a concrete provider with a configured forbidden URL. -/
theorem forbidden_response_witness :
    (authenticate wPool wProviderForbidden Response.empty wRequest).1.statusWrites = [303] ∧
      headerValues (authenticate wPool wProviderForbidden Response.empty wRequest).1.headers
        "Location" = ["/forbidden"] ∧
      (authenticate wPool wProviderForbidden Response.empty wRequest).1.bodyWrites =
        ["Forbidden"] ∧
      (authenticate wPool wProviderForbidden Response.empty wRequest).2.2.err =
        some (.validatorErr "user role is valid, but not allowed by acl") := by
  have h := forbidden_response wPool wProviderForbidden wRequest none false
    "user role is valid, but not allowed by acl" rfl rfl rfl (by decide)
  simpa using h

/-- A validator that rejects with an ordinary (non-forbidden) error. -/
def wValidatorExpired : TokenValidator :=
  ⟨["access_token"], fun _ _ => (none, false, some "token expired")⟩

/-- A provisioned provider wired to `wValidatorExpired`. -/
def wProviderExpired : AuthProvider :=
  { wProviderForbidden with TokenValidator := wValidatorExpired }

/-- C2: on a provisioned provider, if the validator returns an error whose
message does not contain the forbidden-role marker, `Authenticate` writes
status 302 with body `Unauthorized`, adds exactly one
`Set-Cookie: <name>=delete; path=/; expires=Thu, 01 Jan 1970 00:00:00 GMT`
header per cookie name known to the token validator (the names, being Go
map keys, are distinct), sets the redirect `Location` header, and returns
the validator's error. -/
theorem unauthorized_response (pool : String → Except String AuthProvider)
    (m : AuthProvider) (r : Request) (c : Option UserClaims) (v : Bool) (e : String)
    (hpf : m.ProvisionFailed = false) (hp : m.Provisioned = true)
    (ha : m.TokenValidator.Authorize r (prepareOpts m r) = (c, v, some e))
    (hm : strContains e forbiddenMarker = false)
    (hnd : m.TokenValidator.Cookies.Nodup) :
    (authenticate pool m Response.empty r).1.statusWrites = [302] ∧
      (authenticate pool m Response.empty r).1.bodyWrites = ["Unauthorized"] ∧
      headerValues (authenticate pool m Response.empty r).1.headers "Set-Cookie" =
        m.TokenValidator.Cookies.map cookieExpire ∧
      (∀ k ∈ m.TokenValidator.Cookies,
        (headerValues (authenticate pool m Response.empty r).1.headers "Set-Cookie").count
          (cookieExpire k) = 1) ∧
      headerValues (authenticate pool m Response.empty r).1.headers "Location" =
        [redirectLocation m.AuthURLPath m.AuthRedirectQueryDisabled
          m.AuthRedirectQueryParameter r.Path] ∧
      (authenticate pool m Response.empty r).2.2.err = some (.validatorErr e) := by
  have hres : authenticate pool m Response.empty r =
      (writeBody (writeHeader (addRedirectLocationHeader
          (purgeCookies Response.empty m.TokenValidator.Cookies) r m.AuthURLPath
          m.AuthRedirectQueryDisabled m.AuthRedirectQueryParameter) 302) "Unauthorized", r,
        ⟨emptyUser, false, some (.validatorErr e)⟩) := by
    simp [authenticate, authenticateCore, hpf, hp, ha, hm]
  have hsc : headerValues (authenticate pool m Response.empty r).1.headers "Set-Cookie" =
      m.TokenValidator.Cookies.map cookieExpire := by
    rw [hres]
    simp only [writeBody, writeHeader, addRedirectLocationHeader]
    rw [headerValues_headerSet_ne _ _ _ _ (by decide), purgeCookies_setCookie]
    simp [Response.empty, headerValues_nil]
  refine ⟨?_, ?_, hsc, ?_, ?_, ?_⟩
  · rw [hres]
    simp [writeBody, writeHeader, addRedirectLocationHeader, purgeCookies_statusWrites,
      Response.empty]
  · rw [hres]
    simp [writeBody, writeHeader, addRedirectLocationHeader, purgeCookies_bodyWrites,
      Response.empty]
  · intro k hk
    rw [hsc, List.count_map_of_injective _ _ cookieExpire_injective,
      List.count_eq_one_of_mem hnd hk]
  · rw [hres]
    simp [writeBody, writeHeader, addRedirectLocationHeader, headerValues_headerSet_self]
  · rw [hres]

/-- Witness for C2 at a concrete provider whose validator knows one cookie. -/
theorem unauthorized_response_witness :
    (authenticate wPool wProviderExpired Response.empty wRequest).1.statusWrites = [302] ∧
      (authenticate wPool wProviderExpired Response.empty wRequest).1.bodyWrites =
        ["Unauthorized"] ∧
      headerValues (authenticate wPool wProviderExpired Response.empty wRequest).1.headers
        "Set-Cookie" =
        ["access_token=delete; path=/; expires=Thu, 01 Jan 1970 00:00:00 GMT"] ∧
      (headerValues (authenticate wPool wProviderExpired Response.empty wRequest).1.headers
        "Set-Cookie").count
          "access_token=delete; path=/; expires=Thu, 01 Jan 1970 00:00:00 GMT" = 1 ∧
      headerValues (authenticate wPool wProviderExpired Response.empty wRequest).1.headers
        "Location" = ["/auth/login?redirect_url=/x"] ∧
      (authenticate wPool wProviderExpired Response.empty wRequest).2.2.err =
        some (.validatorErr "token expired") := by
  have h := unauthorized_response wPool wProviderExpired wRequest none false "token expired"
    rfl rfl rfl (by decide) (by decide)
  refine ⟨h.1, h.2.1, ?_, ?_, ?_, h.2.2.2.2.2⟩
  · simpa [wProviderExpired, wValidatorExpired, wProviderForbidden, cookieExpire]
      using h.2.2.1
  · simpa [cookieExpire] using h.2.2.2.1 "access_token" (by simp [wProviderExpired,
      wValidatorExpired, wProviderForbidden])
  · simpa [wProviderExpired, wProviderForbidden, redirectLocation, wRequest]
      using h.2.2.2.2.1

/-- Shape of the purge-cookies / redirect / 302 response common to the
`Unauthorized`, `Unauthorized User` and `User Unauthorized` paths. -/
theorem purgeRedirectProps (cookies : List String) (r : Request) (ap : String) (dq : Bool)
    (qp msg : String) :
    (writeBody (writeHeader (addRedirectLocationHeader (purgeCookies Response.empty cookies)
        r ap dq qp) 302) msg).statusWrites = [302] ∧
      (writeBody (writeHeader (addRedirectLocationHeader (purgeCookies Response.empty cookies)
        r ap dq qp) 302) msg).bodyWrites = [msg] ∧
      headerValues (writeBody (writeHeader (addRedirectLocationHeader
        (purgeCookies Response.empty cookies) r ap dq qp) 302) msg).headers "Set-Cookie" =
        cookies.map cookieExpire ∧
      headerValues (writeBody (writeHeader (addRedirectLocationHeader
        (purgeCookies Response.empty cookies) r ap dq qp) 302) msg).headers "Location" =
        [redirectLocation ap dq qp r.Path] := by
  refine ⟨?_, ?_, ?_, ?_⟩
  · simp [writeBody, writeHeader, addRedirectLocationHeader, purgeCookies_statusWrites,
      Response.empty]
  · simp [writeBody, writeHeader, addRedirectLocationHeader, purgeCookies_bodyWrites,
      Response.empty]
  · simp only [writeBody, writeHeader, addRedirectLocationHeader]
    rw [headerValues_headerSet_ne _ _ _ _ (by decide), purgeCookies_setCookie]
    simp [Response.empty, headerValues_nil]
  · simp [writeBody, writeHeader, addRedirectLocationHeader, headerValues_headerSet_self]

/-- C3: on a provisioned provider, when the validator returns no error,
an invalid user yields a 302 response with body `Unauthorized User`, and
a valid user with a nil claim set yields a 302 response with body
`User Unauthorized`; both apply the error path's cookie purge and
redirect `Location` header, and `Authenticate` returns a nil error. -/
theorem invalid_user_nil_claims (pool1 pool2 : String → Except String AuthProvider)
    (m1 m2 : AuthProvider) (r1 r2 : Request) (c1 : Option UserClaims)
    (hpf1 : m1.ProvisionFailed = false) (hp1 : m1.Provisioned = true)
    (hpf2 : m2.ProvisionFailed = false) (hp2 : m2.Provisioned = true)
    (ha1 : m1.TokenValidator.Authorize r1 (prepareOpts m1 r1) = (c1, false, none))
    (ha2 : m2.TokenValidator.Authorize r2 (prepareOpts m2 r2) = (none, true, none)) :
    ((authenticate pool1 m1 Response.empty r1).1.statusWrites = [302] ∧
      (authenticate pool1 m1 Response.empty r1).1.bodyWrites = ["Unauthorized User"] ∧
      headerValues (authenticate pool1 m1 Response.empty r1).1.headers "Set-Cookie" =
        m1.TokenValidator.Cookies.map cookieExpire ∧
      headerValues (authenticate pool1 m1 Response.empty r1).1.headers "Location" =
        [redirectLocation m1.AuthURLPath m1.AuthRedirectQueryDisabled
          m1.AuthRedirectQueryParameter r1.Path] ∧
      (authenticate pool1 m1 Response.empty r1).2.2.err = none ∧
      (authenticate pool1 m1 Response.empty r1).2.2.ok = false) ∧
    ((authenticate pool2 m2 Response.empty r2).1.statusWrites = [302] ∧
      (authenticate pool2 m2 Response.empty r2).1.bodyWrites = ["User Unauthorized"] ∧
      headerValues (authenticate pool2 m2 Response.empty r2).1.headers "Set-Cookie" =
        m2.TokenValidator.Cookies.map cookieExpire ∧
      headerValues (authenticate pool2 m2 Response.empty r2).1.headers "Location" =
        [redirectLocation m2.AuthURLPath m2.AuthRedirectQueryDisabled
          m2.AuthRedirectQueryParameter r2.Path] ∧
      (authenticate pool2 m2 Response.empty r2).2.2.err = none ∧
      (authenticate pool2 m2 Response.empty r2).2.2.ok = false) := by
  have hres1 : authenticate pool1 m1 Response.empty r1 =
      (writeBody (writeHeader (addRedirectLocationHeader
          (purgeCookies Response.empty m1.TokenValidator.Cookies) r1 m1.AuthURLPath
          m1.AuthRedirectQueryDisabled m1.AuthRedirectQueryParameter) 302)
        "Unauthorized User", r1, ⟨emptyUser, false, none⟩) := by
    simp [authenticate, authenticateCore, hpf1, hp1, ha1]
  have hres2 : authenticate pool2 m2 Response.empty r2 =
      (writeBody (writeHeader (addRedirectLocationHeader
          (purgeCookies Response.empty m2.TokenValidator.Cookies) r2 m2.AuthURLPath
          m2.AuthRedirectQueryDisabled m2.AuthRedirectQueryParameter) 302)
        "User Unauthorized", r2, ⟨emptyUser, false, none⟩) := by
    simp [authenticate, authenticateCore, hpf2, hp2, ha2]
  have h1 := purgeRedirectProps m1.TokenValidator.Cookies r1 m1.AuthURLPath
    m1.AuthRedirectQueryDisabled m1.AuthRedirectQueryParameter "Unauthorized User"
  have h2 := purgeRedirectProps m2.TokenValidator.Cookies r2 m2.AuthURLPath
    m2.AuthRedirectQueryDisabled m2.AuthRedirectQueryParameter "User Unauthorized"
  rw [hres1, hres2]
  exact ⟨⟨h1.1, h1.2.1, h1.2.2.1, h1.2.2.2, rfl, rfl⟩,
    ⟨h2.1, h2.2.1, h2.2.2.1, h2.2.2.2, rfl, rfl⟩⟩

/-- A validator that reports an invalid user with no error. -/
def wValidatorInvalidUser : TokenValidator :=
  ⟨["access_token"], fun _ _ => (none, false, none)⟩

/-- A validator that reports a valid user but a nil claim set. -/
def wValidatorNilClaims : TokenValidator :=
  ⟨["access_token"], fun _ _ => (none, true, none)⟩

/-- Provider wired to `wValidatorInvalidUser`. -/
def wProviderInvalidUser : AuthProvider :=
  { wProviderForbidden with TokenValidator := wValidatorInvalidUser }

/-- Provider wired to `wValidatorNilClaims`. -/
def wProviderNilClaims : AuthProvider :=
  { wProviderForbidden with TokenValidator := wValidatorNilClaims }

/-- Witness for C3 at concrete invalid-user and nil-claims validators. -/
theorem invalid_user_nil_claims_witness :
    ((authenticate wPool wProviderInvalidUser Response.empty wRequest).1.bodyWrites =
        ["Unauthorized User"] ∧
      (authenticate wPool wProviderInvalidUser Response.empty wRequest).1.statusWrites =
        [302] ∧
      (authenticate wPool wProviderInvalidUser Response.empty wRequest).2.2.err = none) ∧
    ((authenticate wPool wProviderNilClaims Response.empty wRequest).1.bodyWrites =
        ["User Unauthorized"] ∧
      (authenticate wPool wProviderNilClaims Response.empty wRequest).1.statusWrites =
        [302] ∧
      (authenticate wPool wProviderNilClaims Response.empty wRequest).2.2.err = none) := by
  have h := invalid_user_nil_claims wPool wPool wProviderInvalidUser wProviderNilClaims
    wRequest wRequest none rfl rfl rfl rfl rfl rfl
  exact ⟨⟨h.1.2.1, h.1.1, h.1.2.2.2.2.1⟩, ⟨h.2.2.1, h.2.1, h.2.2.2.2.2.1⟩⟩

/-- Concrete claims used by grantor and identity witnesses. -/
def wClaims : UserClaims := ⟨"sub-1", "John Smith", "a@b.com", ["admin", "user"]⟩

/-- A concrete signing routine for witnesses. -/
def wGetToken : UserClaims → String → String → Except TokenError String :=
  fun c mth s => .ok (c.Email ++ "|" ++ mth ++ "|" ++ s)

/-- C4: `GrantToken(method, claims)` fails with `UnsupportedMethodError`
naming the method when the method is unregistered — regardless of the
claims and the secret, so the method check comes first; otherwise fails
with `NilClaimsError` when claims are nil — regardless of the secret;
otherwise fails with `EmptySecretError` when the secret is empty;
otherwise returns exactly the claim set's own signing routine applied to
the method and the grantor's secret. -/
theorem grantToken_spec (methods : List String)
    (getToken : UserClaims → String → String → Except TokenError String)
    (g0 gE gS : TokenGrantor) (mU mR : String) (c : UserClaims)
    (claims0 : Option UserClaims)
    (hmU : methods.contains mU = false) (hmR : methods.contains mR = true)
    (hgE : gE.TokenSecret = "") (hgS : gS.TokenSecret ≠ "") :
    grantToken methods getToken g0 mU claims0 = .error (.unsupportedMethodErr mU) ∧
      grantToken methods getToken g0 mR none = .error .noClaimsErr ∧
      grantToken methods getToken gE mR (some c) = .error .emptySecretErr ∧
      grantToken methods getToken gS mR (some c) = getToken c mR gS.TokenSecret := by
  have hmU2 : mU ∉ methods := by simpa using hmU
  have hmR2 : mR ∈ methods := by simpa using hmR
  refine ⟨?_, ?_, ?_, ?_⟩ <;> simp [grantToken, hmU2, hmR2, hgE, hgS]

/-- Witness for C4: with registry `["HS256"]`, an unregistered method
fails first even with nil claims and empty secret; nil claims fail even
with empty secret; empty secret fails with claims present; and a fully
configured call delegates to the signing routine. -/
theorem grantToken_spec_witness :
    grantToken ["HS256"] wGetToken ⟨""⟩ "none256" none =
        .error (.unsupportedMethodErr "none256") ∧
      grantToken ["HS256"] wGetToken ⟨""⟩ "HS256" none = .error .noClaimsErr ∧
      grantToken ["HS256"] wGetToken ⟨""⟩ "HS256" (some wClaims) =
        .error .emptySecretErr ∧
      grantToken ["HS256"] wGetToken ⟨"secret"⟩ "HS256" (some wClaims) =
        wGetToken wClaims "HS256" "secret" := by
  have h := grantToken_spec ["HS256"] wGetToken ⟨""⟩ ⟨""⟩ ⟨"secret"⟩ "none256" "HS256"
    wClaims none (by decide) (by decide) rfl (by decide)
  exact h

/-- C5: whenever the provider's `ProvisionFailed` flag is set,
`Authenticate` writes exactly status 500 with body `Internal Server Error`
and returns `ErrProvisonFailed`.  The right-hand side of the equation
mentions neither the pool nor any other field of the provider: the pool
is never consulted and the token validator is never invoked — the check
precedes every other step. -/
theorem provision_failed_first (pool : String → Except String AuthProvider)
    (pool2 : String → Except String AuthProvider) (v2 : TokenValidator)
    (m : AuthProvider) (w : Response) (r : Request) (h : m.ProvisionFailed = true) :
    authenticate pool m w r =
        (writeBody (writeHeader w 500) "Internal Server Error", r,
          ⟨emptyUser, false, some .provisonFailedErr⟩) ∧
      authenticate pool m w r =
        authenticate pool2 { m with TokenValidator := v2 } w r := by
  constructor <;> simp [authenticate, h]

/-- A provider whose provisioning failed. -/
def wProviderFailed : AuthProvider :=
  { wProviderForbidden with ProvisionFailed := true }

/-- Witness for C5 at a concrete broken provider. -/
theorem provision_failed_first_witness :
    authenticate wPool wProviderFailed Response.empty wRequest =
        (writeBody (writeHeader Response.empty 500) "Internal Server Error", wRequest,
          ⟨emptyUser, false, some .provisonFailedErr⟩) ∧
      authenticate wPool wProviderFailed Response.empty wRequest =
        authenticate (fun _ => .error "other pool")
          { wProviderFailed with TokenValidator := wValidatorExpired }
          Response.empty wRequest :=
  provision_failed_first wPool (fun _ => .error "other pool") wValidatorExpired
    wProviderFailed Response.empty wRequest rfl

theorem mapGet_roles_name (md : StrMap) (v : String) :
    mapGet (mapSet md "name" v) "roles" = mapGet md "roles" :=
  mapGet_mapSet_ne md "name" v "roles" (by decide)

theorem mapGet_roles_email (md : StrMap) (v : String) :
    mapGet (mapSet md "email" v) "roles" = mapGet md "roles" :=
  mapGet_mapSet_ne md "email" v "roles" (by decide)

/-- A validator that accepts with the concrete `wClaims`. -/
def wValidatorSuccess : TokenValidator :=
  ⟨["access_token"], fun _ _ => (some wClaims, true, none)⟩

/-- Provider wired to `wValidatorSuccess`. -/
def wProviderSuccess : AuthProvider :=
  { wProviderForbidden with TokenValidator := wValidatorSuccess }

/-- C6: on success, the identity record returned by `Authenticate` has
identifier equal to the claim set's email and metadata key `roles` equal
to the role strings joined by single spaces. -/
theorem success_identity (pool : String → Except String AuthProvider)
    (m : AuthProvider) (r : Request) (c : UserClaims)
    (hpf : m.ProvisionFailed = false) (hp : m.Provisioned = true)
    (ha : m.TokenValidator.Authorize r (prepareOpts m r) = (some c, true, none)) :
    (authenticate pool m Response.empty r).2.2.user.ID = c.Email ∧
      mapGet (authenticate pool m Response.empty r).2.2.user.Metadata "roles" =
        some (String.intercalate " " c.Roles) := by
  by_cases hn : c.Name = "" <;> by_cases he : c.Email = "" <;>
    simp [authenticate, authenticateCore, hpf, hp, ha, hn, he,
      mapGet_roles_name, mapGet_roles_email, mapGet_mapSet_self]

/-- Witness for C6: for claims with email `a@b.com` and roles
`["admin", "user"]`, the identifier is `a@b.com` and the `roles`
metadata is `admin user`. -/
theorem success_identity_witness :
    (authenticate wPool wProviderSuccess Response.empty wRequest).2.2.user.ID = "a@b.com" ∧
      mapGet (authenticate wPool wProviderSuccess Response.empty wRequest).2.2.user.Metadata
        "roles" = some "admin user" := by
  have h := success_identity wPool wProviderSuccess wRequest wClaims rfl rfl rfl
  simpa [wClaims] using h

/-- C7 (amended): on success, `Authenticate` never touches the response —
the response state is returned exactly as given — and, with claim-header
propagation enabled, it sets `X-Token-User-Name`, `X-Token-User-Email`,
`X-Token-User-Roles` and `X-Token-Subject` on the forwarded request
exactly when the corresponding claim field is non-empty (roles: the role
list is non-empty); a header whose field is empty, or any header with
propagation disabled, is left as it was on the inbound request. -/
theorem success_header_injection (pool : String → Except String AuthProvider)
    (m : AuthProvider) (w : Response) (r : Request) (c : UserClaims)
    (hpf : m.ProvisionFailed = false) (hp : m.Provisioned = true)
    (ha : m.TokenValidator.Authorize r (prepareOpts m r) = (some c, true, none)) :
    (authenticate pool m w r).1 = w ∧
      (authenticate pool m w r).2.1.Method = r.Method ∧
      (authenticate pool m w r).2.1.Path = r.Path ∧
      headerValues (authenticate pool m w r).2.1.Header "X-Token-User-Name" =
        (if m.PassClaimsWithHeaders && (c.Name != "") then [c.Name]
          else headerValues r.Header "X-Token-User-Name") ∧
      headerValues (authenticate pool m w r).2.1.Header "X-Token-User-Email" =
        (if m.PassClaimsWithHeaders && (c.Email != "") then [c.Email]
          else headerValues r.Header "X-Token-User-Email") ∧
      headerValues (authenticate pool m w r).2.1.Header "X-Token-User-Roles" =
        (if m.PassClaimsWithHeaders && decide (0 < c.Roles.length) then
            [String.intercalate " " c.Roles]
          else headerValues r.Header "X-Token-User-Roles") ∧
      headerValues (authenticate pool m w r).2.1.Header "X-Token-Subject" =
        (if m.PassClaimsWithHeaders && (c.Subject != "") then [c.Subject]
          else headerValues r.Header "X-Token-Subject") := by
  by_cases hpass : m.PassClaimsWithHeaders <;> by_cases hn : c.Name = "" <;>
    by_cases he : c.Email = "" <;> by_cases hr : c.Roles = [] <;>
    by_cases hs : c.Subject = "" <;>
    simp [authenticate, authenticateCore, hpf, hp, ha, hpass, hn, he, hr, hs,
      headerValues_headerSet_self, headerValues_headerSet_ne, List.length_pos]

/-- Provider with claim-header propagation enabled, wired to the
accepting `wValidatorSuccess`. -/
def wProviderSuccessHdrs : AuthProvider :=
  { wProviderForbidden with
    TokenValidator := wValidatorSuccess
    PassClaimsWithHeaders := true }

/-- Witness for C7's amended theorem: with propagation enabled and every
claim field non-empty, all four headers appear on the forwarded request
and the response is untouched. -/
theorem success_header_injection_witness :
    (authenticate wPool wProviderSuccessHdrs Response.empty wRequest).1 = Response.empty ∧
      headerValues (authenticate wPool wProviderSuccessHdrs Response.empty
        wRequest).2.1.Header "X-Token-User-Name" = ["John Smith"] ∧
      headerValues (authenticate wPool wProviderSuccessHdrs Response.empty
        wRequest).2.1.Header "X-Token-User-Email" = ["a@b.com"] ∧
      headerValues (authenticate wPool wProviderSuccessHdrs Response.empty
        wRequest).2.1.Header "X-Token-User-Roles" = ["admin user"] ∧
      headerValues (authenticate wPool wProviderSuccessHdrs Response.empty
        wRequest).2.1.Header "X-Token-Subject" = ["sub-1"] := by
  have h := success_header_injection wPool wProviderSuccessHdrs Response.empty wRequest
    wClaims rfl rfl rfl
  refine ⟨h.1, ?_, ?_, ?_, ?_⟩
  · simpa [wClaims, wProviderSuccessHdrs, wProviderForbidden] using h.2.2.2.1
  · simpa [wClaims, wProviderSuccessHdrs, wProviderForbidden] using h.2.2.2.2.1
  · simpa [wClaims, wProviderSuccessHdrs, wProviderForbidden] using h.2.2.2.2.2.1
  · simpa [wClaims, wProviderSuccessHdrs, wProviderForbidden] using h.2.2.2.2.2.2

/-- Claims with every field empty: a validator-contract-legal success
payload with nothing to propagate. -/
def wClaimsEmpty : UserClaims := ⟨"", "", "", []⟩

/-- A validator that accepts with `wClaimsEmpty`. -/
def wValidatorEmptyClaims : TokenValidator :=
  ⟨["access_token"], fun _ _ => (some wClaimsEmpty, true, none)⟩

/-- Provider with claim-header propagation enabled, wired to
`wValidatorEmptyClaims`. -/
def wProviderEmptyClaims : AuthProvider :=
  { wProviderForbidden with
    TokenValidator := wValidatorEmptyClaims
    PassClaimsWithHeaders := true }

/-- C7 counterexample: a success with claim-header propagation enabled in
which the claim fields are empty.  The outcome is a pass-through success,
yet the forwarded request is unchanged and carries no `X-Token-User-Name`
header — refuting the claim that on success with propagation enabled the
four `X-Token-*` headers are injected. -/
theorem success_header_injection_cex :
    wProviderEmptyClaims.PassClaimsWithHeaders = true ∧
      (authenticate wPool wProviderEmptyClaims Response.empty wRequest).2.2.ok = true ∧
      (authenticate wPool wProviderEmptyClaims Response.empty wRequest).2.1 = wRequest ∧
      headerValues (authenticate wPool wProviderEmptyClaims Response.empty
        wRequest).2.1.Header "X-Token-User-Name" = [] :=
  ⟨rfl, rfl, rfl, rfl⟩

theorem heapGet_append_len (h : MetaHeap) (x : StrMap) :
    heapGet (h ++ [x]) h.length = x := by
  induction h with
  | nil => rfl
  | cons y t ih => simp [heapGet, List.getD] at ih ⊢

theorem heapSet_append_len (h : MetaHeap) (x v : StrMap) :
    heapSet (h ++ [x]) h.length v = h ++ [v] := by
  induction h with
  | nil => rfl
  | cons y t ih => simp [heapSet] at ih ⊢

theorem heapGet_append_lt (h : MetaHeap) (x : StrMap) (i : Nat) (hi : i < h.length) :
    heapGet (h ++ [x]) i = heapGet h i := by
  induction h generalizing i with
  | nil => exact absurd hi (by simp)
  | cons y t ih =>
    cases i with
    | zero => rfl
    | succ j => simpa [heapGet, List.getD] using ih j (by simpa using hi)

/-- C8: with method/path-sensitive validation enabled, the options passed
to the validator (`prepareOpts`, the exact argument of the `Authorize`
call in `authenticateCore`) are a clone of the configured options whose
metadata maps `method` to the request method and `path` to the request
path; and in the reference model of Go map aliasing, the two in-place
metadata writes land in the freshly allocated clone cell while the shared
configuration's own metadata cell is unchanged. -/
theorem option_clone_isolation (m : AuthProvider) (r : Request) (h : MetaHeap)
    (o : TokenValidatorOptionsRef) (hmp : m.ValidateMethodPath = true)
    (hv : o.metadataRef < h.length) :
    mapGet (prepareOpts m r).Metadata "method" = some r.Method ∧
      mapGet (prepareOpts m r).Metadata "path" = some r.Path ∧
      (prepareOpts m r).Metadata =
        mapSet (mapSet m.TokenValidatorOptions.Metadata "method" r.Method) "path" r.Path ∧
      heapGet (prepareOptsH h true o r).2 (prepareOptsH h true o r).1.metadataRef =
        mapSet (mapSet (heapGet h o.metadataRef) "method" r.Method) "path" r.Path ∧
      heapGet (prepareOptsH h true o r).2 o.metadataRef = heapGet h o.metadataRef ∧
      (prepareOptsH h true o r).1.metadataRef ≠ o.metadataRef := by
  have hne : o.metadataRef ≠ h.length := Nat.ne_of_lt hv
  refine ⟨?_, ?_, ?_, ?_, ?_, ?_⟩
  · rw [show (prepareOpts m r).Metadata =
        mapSet (mapSet m.TokenValidatorOptions.Metadata "method" r.Method) "path" r.Path by
      simp [prepareOpts, TokenValidatorOptions.clone, hmp]]
    rw [mapGet_mapSet_ne _ _ _ _ (by decide), mapGet_mapSet_self]
  · rw [show (prepareOpts m r).Metadata =
        mapSet (mapSet m.TokenValidatorOptions.Metadata "method" r.Method) "path" r.Path by
      simp [prepareOpts, TokenValidatorOptions.clone, hmp]]
    rw [mapGet_mapSet_self]
  · simp [prepareOpts, TokenValidatorOptions.clone, hmp]
  · simp [prepareOptsH, cloneRef, heapGet_append_len, heapSet_append_len]
  · simp [prepareOptsH, cloneRef, heapGet_append_len, heapSet_append_len,
      heapGet_append_lt _ _ _ hv]
  · simpa [prepareOptsH, cloneRef, heapSet_append_len, heapGet_append_len] using
      Ne.symm (Nat.ne_of_lt hv)

/-- Witness for C8 at a one-cell heap and a provider with method/path
validation on. -/
theorem option_clone_isolation_witness :
    mapGet (prepareOpts { wProviderForbidden with
        ValidateMethodPath := true
        TokenValidatorOptions := ⟨[("source", "ip")]⟩ } wRequest).Metadata "method" =
      some "GET" ∧
    heapGet (prepareOptsH [[("source", "ip")]] true ⟨0⟩ wRequest).2 0 = [("source", "ip")] := by
  have h := option_clone_isolation
    { wProviderForbidden with
      ValidateMethodPath := true
      TokenValidatorOptions := ⟨[("source", "ip")]⟩ }
    wRequest [[("source", "ip")]] ⟨0⟩ rfl (by decide)
  exact ⟨h.1, h.2.2.2.2.1⟩

/-- On any provisioned-core run from a fresh response, either a failure
outcome writes exactly one status and one body, or the success outcome
writes neither. -/
theorem authenticateCore_single (m : AuthProvider) (r : Request) :
    ((authenticateCore m Response.empty r).2.2.ok = false ∧
        (authenticateCore m Response.empty r).1.statusWrites.length = 1 ∧
        (authenticateCore m Response.empty r).1.bodyWrites.length = 1) ∨
      ((authenticateCore m Response.empty r).2.2.ok = true ∧
        (authenticateCore m Response.empty r).1.statusWrites = [] ∧
        (authenticateCore m Response.empty r).1.bodyWrites = []) := by
  rcases hA : m.TokenValidator.Authorize r (prepareOpts m r) with ⟨c, v, e⟩
  cases e with
  | some err =>
    left
    by_cases hf : strContains err forbiddenMarker
    · by_cases hu : m.ForbiddenURL = "" <;>
        simp [authenticateCore, hA, hf, hu, writeHeader, writeBody, Response.empty]
    · simp [authenticateCore, hA, hf, writeHeader, writeBody, addRedirectLocationHeader,
        purgeCookies_statusWrites, purgeCookies_bodyWrites, Response.empty]
  | none =>
    cases v with
    | false =>
      left
      simp [authenticateCore, hA, writeHeader, writeBody, addRedirectLocationHeader,
        purgeCookies_statusWrites, purgeCookies_bodyWrites, Response.empty]
    | true =>
      cases c with
      | none =>
        left
        simp [authenticateCore, hA, writeHeader, writeBody, addRedirectLocationHeader,
          purgeCookies_statusWrites, purgeCookies_bodyWrites, Response.empty]
      | some uc =>
        right
        simp [authenticateCore, hA, Response.empty]

/-- C9: every request reaches exactly one terminal outcome: starting from
a fresh response, either the call fails (provisioning failure, forbidden,
validation error, invalid user, or nil claims) and exactly one status
code and exactly one body are written, or the call is a pass-through
success and neither a status nor a body is written. -/
theorem single_outcome (pool : String → Except String AuthProvider) (m : AuthProvider)
    (r : Request) :
    ((authenticate pool m Response.empty r).2.2.ok = false ∧
        (authenticate pool m Response.empty r).1.statusWrites.length = 1 ∧
        (authenticate pool m Response.empty r).1.bodyWrites.length = 1) ∨
      ((authenticate pool m Response.empty r).2.2.ok = true ∧
        (authenticate pool m Response.empty r).1.statusWrites = [] ∧
        (authenticate pool m Response.empty r).1.bodyWrites = []) := by
  by_cases hpf : m.ProvisionFailed
  · left
    simp [authenticate, hpf, writeHeader, writeBody, Response.empty]
  · by_cases hp : m.Provisioned
    · have hres : authenticate pool m Response.empty r = authenticateCore m Response.empty r := by
        simp [authenticate, hpf, hp]
      rw [hres]
      exact authenticateCore_single m r
    · rcases hpool : pool m.Name with e | inst
      · left
        simp [authenticate, hpf, hp, hpool, writeHeader, writeBody, Response.empty]
      · have hres : authenticate pool m Response.empty r =
            authenticateCore inst Response.empty r := by
          simp [authenticate, hpf, hp, hpool]
        rw [hres]
        exact authenticateCore_single inst r

/-- C10: `Authenticate` takes its provider by value and performs no
registry write — in this embedding its only outputs are the response, the
forwarded request and the returned triple, and the pool is read-only.
On a not-yet-provisioned receiver it re-fetches the configuration from
the pool by name and runs the decision core on that fetched instance (the
lazy bind assigns only the per-call local copy); consequently two
unprovisioned receivers that share a name behave identically regardless
of every other field. -/
theorem value_receiver_lazy_bind (pool : String → Except String AuthProvider)
    (m m2 inst : AuthProvider) (w : Response) (r : Request)
    (hpf : m.ProvisionFailed = false) (hnp : m.Provisioned = false)
    (hpf2 : m2.ProvisionFailed = false) (hnp2 : m2.Provisioned = false)
    (hname : m2.Name = m.Name)
    (hpool : pool m.Name = .ok inst) :
    authenticate pool m w r = authenticateCore inst w r ∧
      authenticate pool m2 w r = authenticate pool m w r := by
  have h1 : authenticate pool m w r = authenticateCore inst w r := by
    simp [authenticate, hpf, hnp, hpool]
  have h2 : authenticate pool m2 w r = authenticateCore inst w r := by
    simp [authenticate, hpf2, hnp2, hname, hpool]
  exact ⟨h1, h2.trans h1.symm⟩

/-- A pool that resolves the name `p` to the provisioned
`wProviderSuccess`. -/
def wPoolOk : String → Except String AuthProvider :=
  fun n => if n == "p" then .ok wProviderSuccess else .error "no policy"

/-- An unprovisioned registration stub for the policy `p`, holding a
validator that must never be consulted. -/
def wProviderStub : AuthProvider :=
  { wProviderForbidden with
    Provisioned := false
    TokenValidator := wValidatorExpired }

/-- A second unprovisioned stub for `p` differing in every irrelevant
field. -/
def wProviderStub2 : AuthProvider :=
  { Name := "p", Provisioned := false, ProvisionFailed := false,
    AuthURLPath := "/other", AuthRedirectQueryDisabled := true,
    AuthRedirectQueryParameter := "q",
    TokenValidator := wValidatorForbidden, TokenValidatorOptions := ⟨[("a", "b")]⟩,
    ForbiddenURL := "", ValidateMethodPath := true,
    PassClaimsWithHeaders := true }

/-- Witness for C10: both stubs defer to the pool's provisioned instance. -/
theorem value_receiver_lazy_bind_witness :
    authenticate wPoolOk wProviderStub Response.empty wRequest =
        authenticateCore wProviderSuccess Response.empty wRequest ∧
      authenticate wPoolOk wProviderStub2 Response.empty wRequest =
        authenticate wPoolOk wProviderStub Response.empty wRequest :=
  value_receiver_lazy_bind wPoolOk wProviderStub wProviderStub2 wProviderSuccess
    Response.empty wRequest rfl rfl rfl rfl rfl rfl

end CaddyAuthJWT
